import Mathlib

/-!
Shallow embedding of the status-text parsing and policy-evaluation engine of
`check_wintask.py` (an Icinga 2 check plugin for Windows scheduled tasks).

The SSH transport is external: the parser receives the already-decoded raw
text of the remote status command.  Fallible Python operations (`dict[...]`
raising `KeyError`, `int(...)` raising `ValueError`, list indexing raising
`IndexError`) are modelled with `Except Unit`: an uncaught exception aborts
the whole evaluation pass, which `Except.error ()` represents.
-/

/-- Python's substring containment on char lists: `needle in hay`. -/
def startsWithChars : List Char → List Char → Bool
  | [], _ => true
  | _ :: _, [] => false
  | a :: as, b :: bs => a == b && startsWithChars as bs

/-- Scan of `hay` for `needle` as a contiguous subsequence. -/
def containsChars (needle : List Char) (hay : List Char) : Bool :=
  match hay with
  | [] => startsWithChars needle []
  | c :: rest => startsWithChars needle (c :: rest) || containsChars needle rest

/-- Python's `needle in hay` on strings (also what `re.search` does for the
literal patterns used in `check_exitcodes`). -/
def pyContains (hay : String) (needle : String) : Bool :=
  containsChars needle.data hay.data

/-- Python's `str.strip()`: drop whitespace from both ends. -/
def pyStrip (s : String) : String :=
  String.mk (((s.data.dropWhile Char.isWhitespace).reverse.dropWhile Char.isWhitespace).reverse)

/-- Splitting of decoded text into lines (`str.splitlines()`), recognising
`\n`, `\r\n` and `\r`.  A trailing empty segment may be produced; the caller
(`get_windows_task`) filters out empty lines right away, so the composite
matches Python's `splitlines`. -/
def splitLinesCore : List Char → List Char → List (List Char)
  | [], acc => [acc.reverse]
  | '\r' :: '\n' :: rest, acc => acc.reverse :: splitLinesCore rest []
  | '\n' :: rest, acc => acc.reverse :: splitLinesCore rest []
  | '\r' :: rest, acc => acc.reverse :: splitLinesCore rest []
  | c :: rest, acc => splitLinesCore rest (c :: acc)

def pyLines (s : String) : List String :=
  (splitLinesCore s.data []).map String.mk

/-- A parsed task block: the Python `dict` built by repeated assignment.
New bindings are prepended, so `List.lookup` returns the latest assignment,
matching Python's overwrite-on-assignment semantics. -/
def TaskDict : Type := List (String × String)

instance : DecidableEq TaskDict := by unfold TaskDict; infer_instance
instance : Membership (String × String) TaskDict := by unfold TaskDict; infer_instance
instance : HAppend TaskDict TaskDict TaskDict := by unfold TaskDict; infer_instance

/-- `dict.get`-like total lookup (used to model `dict[k]` together with
`Except`, and the `try/except KeyError` around `Enabled`). -/
def pyGet (d : TaskDict) (k : String) : Option String :=
  List.lookup k d

/-- `dict[k]`: a missing key raises `KeyError`, which no caller catches. -/
def pyGetE (d : TaskDict) (k : String) : Except Unit String :=
  match pyGet d k with
  | some v => Except.ok v
  | none => Except.error ()

/-- `line.split(":", 1)` when the line has a colon: the part before the first
colon and the raw remainder after it.  `none` when the line has no colon. -/
def splitColonOnce : List Char → Option (List Char × List Char)
  | [] => none
  | c :: cs =>
    if c = ':' then some ([], cs)
    else
      match splitColonOnce cs with
      | some (a, b) => some (c :: a, b)
      | none => none

/-- One line of a task block (`get_windows_task`, lines 263-268 of the
source).  With a colon the `try` branch stores the stripped label and value.
Without a colon `task_preference_list[1]` raises `IndexError`; the bare
`except` handler evaluates `task_preference_list[1]` again, so the very same
`IndexError` escapes from the handler and the parse pass crashes. -/
def parseTaskLine (d : TaskDict) (line : String) : Except Unit TaskDict :=
  match splitColonOnce line.data with
  | some (label, value) =>
      Except.ok (((pyStrip (String.mk label), pyStrip (String.mk value)) :: d : List (String × String)))
  | none => Except.error ()

/-- Fold of `parseTaskLine` over the lines of one block. -/
def parseBlock : TaskDict → List String → Except Unit TaskDict
  | d, [] => Except.ok d
  | d, line :: rest =>
    match parseTaskLine d line with
    | Except.ok d' => parseBlock d' rest
    | Except.error e => Except.error e

def parseBlocks : List (List String) → Except Unit (List TaskDict)
  | [] => Except.ok []
  | b :: bs =>
    match parseBlock [] b with
    | Except.error e => Except.error e
    | Except.ok d =>
      match parseBlocks bs with
      | Except.error e => Except.error e
      | Except.ok ds => Except.ok (d :: ds)

/-- The parsing portion of `get_windows_task`: the raw text of the remote
status command is split into non-empty lines, a block starts at every line
containing `LastRunTime`, each block is the 7-line window starting there
(truncated at end of input), and each block is folded into a task dict. -/
def get_windows_task (raw : String) : Except Unit (List TaskDict) :=
  let perfdata_list := (pyLines raw).filter (fun l => l ≠ "")
  let element_index_list :=
    (List.range perfdata_list.length).filter
      (fun i => pyContains (perfdata_list.getD i "") "LastRunTime")
  let full_task_list := element_index_list.map (fun i => (perfdata_list.drop i).take 7)
  parseBlocks full_task_list

/-- Lowercase hex digit characters, as produced by Python's `hex()`. -/
def hexDigitChar (n : Nat) : Char :=
  if n < 10 then Char.ofNat (48 + n) else Char.ofNat (87 + n)

/-- Digit accumulation for `hex()`: repeated division by 16, most significant
digit first.  Structural recursion on a fuel argument. -/
def hexCore : Nat → Nat → List Char → List Char
  | 0, _, ds => ds
  | fuel + 1, n, ds =>
    let d := hexDigitChar (n % 16)
    if n / 16 = 0 then d :: ds else hexCore fuel (n / 16) (d :: ds)

def natHexStr (n : Nat) : String :=
  String.mk (hexCore (n + 1) n [])

/-- Python's `hex(i)`: `0x` plus lowercase hex digits without leading zeros,
`-0x...` for negative arguments, `0x0` for zero. -/
def pyHex (i : Int) : String :=
  if i < 0 then "-0x" ++ natHexStr i.natAbs else "0x" ++ natHexStr i.toNat

/-- `result_code_hex_converter` of the source: `hex(decimal_code)`. -/
def result_code_hex_converter (decimal_code : Int) : String :=
  pyHex decimal_code

/-- Value of a non-empty all-digit char list (base 10). -/
def digitsVal (cs : List Char) : Option Nat :=
  if cs = [] then none
  else if cs.all Char.isDigit then
    some (cs.foldl (fun acc c => acc * 10 + (c.toNat - 48)) 0)
  else none

/-- Python's `int(s)` on the strings this program feeds it: surrounding
whitespace is stripped, an optional sign precedes a non-empty digit run.
(Underscore digit separators and non-ASCII digits are not modelled.) -/
def pyInt (s : String) : Option Int :=
  match (pyStrip s).data with
  | '-' :: rest => (digitsVal rest).map (fun v => -(v : Int))
  | '+' :: rest => (digitsVal rest).map (fun v => (v : Int))
  | ds => (digitsVal ds).map (fun v => (v : Int))

/-- `check_task_result_string`: the Result-Code Lexicon, the literal
`if/elif` chain of the source (including its duplicated `0x800710e0`
branch); every unknown code yields the sentinel. -/
def check_task_result_string (task_hex_code : String) : String :=
  if task_hex_code = "0x0" then "The task did run properly."
  else if task_hex_code = "0x1" then "The task did not run properly."
  else if task_hex_code = "0x2" then "File not found."
  else if task_hex_code = "0xa" then "The environment is incorrect."
  else if task_hex_code = "0x103" then "No more data is available."
  else if task_hex_code = "0x41301" then "The task is currently running."
  else if task_hex_code = "0x41302" then "The task will not run at the scheduled times because it has been disabled."
  else if task_hex_code = "0x41303" then "The task has not yet run."
  else if task_hex_code = "0x41305" then "One or more of the properties that are needed to run this task on a schedule have not been set."
  else if task_hex_code = "0x41306" then "The last run of the task was terminated by the user."
  else if task_hex_code = "0x41307" then "Either the task has no triggers or the existing triggers are disabled or not set."
  else if task_hex_code = "0x420" then "An instance of the service is already running."
  else if task_hex_code = "0x800710e0" then "The operator or administrator has refused the request."
  else if task_hex_code = "0x800700b7" then "Cannot create a file when that file already exists."
  else if task_hex_code = "0x8007042b" then "The process terminated unexpectedly."
  else if task_hex_code = "0x40010004" then "Debugger terminated the process."
  else if task_hex_code = "0x80004003" then "Invalid pointer."
  else if task_hex_code = "0x80004005" then "Unspecified error."
  else if task_hex_code = "0x80090030" then "The device that is required by this cryptographic provider is not ready for use."
  else if task_hex_code = "0x10000000" then "Task has a special error, see: https://devblogs.microsoft.com/oldnewthing/20121227-00/?p=5713"
  else if task_hex_code = "0x8000000a" then "The data necessary to complete this operation is not yet available."
  else if task_hex_code = "0x800710e0" then "The operator or administrator has refused the request."
  else "UNKNOWN error code!"

/-- The policy inputs supplied by the CLI layer. -/
structure Options where
  ignore_taskname : List String
  include_taskname_list : List String
  ignore_resultcode : List String
  ignore_nextruntime : Bool
deriving DecidableEq

/-- `internal_task_check` of `check_task_details`: classify one record.
`dict[...]` lookups and `int(...)` may raise; only the `Enabled` lookup is
wrapped in `try/except`, defaulting to `"True"`.  Note that the success test
compares the raw `LastTaskResult` string with `"0"`, while the hex code is
converted from its integer value.  The source's local variables
(`task_trigger`, `task_hex_code`, `output_message`) are inlined here. -/
def internal_task_check (opts : Options) (task_detail_dict : TaskDict)
    (task_name : String) (task_include : Bool) : Except Unit (List String) :=
  match pyGet task_detail_dict "TaskPath" with
  | none => Except.error ()
  | some task_location =>
  match pyGet task_detail_dict "NextRunTime" with
  | none => Except.error ()
  | some task_nextruntime =>
  match pyGet task_detail_dict "LastTaskResult" with
  | none => Except.error ()
  | some last_task_result =>
  match pyInt last_task_result with
  | none => Except.error ()
  | some task_result_code =>
  if result_code_hex_converter task_result_code ∉ opts.ignore_resultcode then
    if last_task_result ≠ "0" then
      Except.ok ["WARNING - " ++
        ("'" ++ task_name ++ "': " ++
          check_task_result_string (result_code_hex_converter task_result_code) ++
          " Task location: " ++ task_location ++ ". Result code: " ++
          result_code_hex_converter task_result_code)]
    else
      if opts.ignore_nextruntime = false then
        if task_nextruntime = "" ∨ (pyGet task_detail_dict "Enabled").getD "True" = "False" then
          Except.ok ["WARNING - '" ++ task_name ++
            "' is not scheduled or no trigger. Task location: " ++ task_location ++ "."]
        else if task_include = true then
          Except.ok ["OK - " ++
            ("'" ++ task_name ++ "': " ++
              check_task_result_string (result_code_hex_converter task_result_code) ++
              " Task location: " ++ task_location ++ ". Result code: " ++
              result_code_hex_converter task_result_code)]
        else Except.ok []
      else if task_include = true then
        Except.ok ["OK - " ++
          ("'" ++ task_name ++ "': " ++
            check_task_result_string (result_code_hex_converter task_result_code) ++
            " Task location: " ++ task_location ++ ". Result code: " ++
            result_code_hex_converter task_result_code)]
      else Except.ok []
  else Except.ok []

/-- First loop of `check_task_details`: collect every record's `TaskName`
(`dict['TaskName']` raises `KeyError` on a record that lacks it). -/
def getTaskNames : List TaskDict → Except Unit (List String)
  | [] => Except.ok []
  | d :: rest =>
    match pyGetE d "TaskName" with
    | Except.error e => Except.error e
    | Except.ok n =>
      match getTaskNames rest with
      | Except.error e => Except.error e
      | Except.ok ns => Except.ok (n :: ns)

/-- The message appended for an include-name with no matching record. -/
def missingMsg (n : String) : String :=
  "WARNING - '" ++ n ++ "' task can not be found. Please check task name!"

/-- Second loop of `check_task_details`: per-record dispatch.  With a
non-empty include list only included names are checked (verbosely); otherwise
every record not in the ignore list is checked silently-on-success. -/
def checkTaskRecords (opts : Options) : List TaskDict → Except Unit (List String)
  | [] => Except.ok []
  | d :: rest =>
    match pyGet d "TaskName" with
    | none => Except.error ()
    | some task_name =>
      match (if opts.include_taskname_list.length > 0 then
               if task_name ∈ opts.include_taskname_list then
                 internal_task_check opts d task_name true
               else Except.ok []
             else
               if task_name ∉ opts.ignore_taskname then
                 internal_task_check opts d task_name false
               else Except.ok []) with
      | Except.error e => Except.error e
      | Except.ok entries =>
        match checkTaskRecords opts rest with
        | Except.error e => Except.error e
        | Except.ok more => Except.ok (entries ++ more)

/-- `check_task_details`.  The source computes the missing include-names as
`list(set(include) - set(tasknames))`; Python fixes neither that enumeration
order within the language nor across processes (string hashing is
randomised), so the enumeration is a parameter here, constrained by
`validMissingOrder` in the theorems. -/
def check_task_details (missingOrder : List String) (opts : Options)
    (task_dict_list : List TaskDict) : Except Unit (List String) :=
  match getTaskNames task_dict_list with
  | Except.error e => Except.error e
  | Except.ok _taskname_list =>
    let missingMsgs := missingOrder.map missingMsg
    match checkTaskRecords opts task_dict_list with
    | Except.error e => Except.error e
    | Except.ok recs => Except.ok (missingMsgs ++ recs)

/-- A list enumerates `set(includeNames) - set(taskNames)` exactly when it
has no duplicates and holds precisely the include-names without a record. -/
def validMissingOrder (includeNames taskNames order : List String) : Prop :=
  order.Nodup ∧
  (∀ x ∈ includeNames, x ∉ taskNames → x ∈ order) ∧
  (∀ x ∈ order, x ∈ includeNames ∧ x ∉ taskNames)

instance (i t o : List String) : Decidable (validMissingOrder i t o) := by
  unfold validMissingOrder; infer_instance

/-- Printing portion of `check_exitcodes`: all lines matching `CRITICAL`,
then all matching `WARNING`, then all matching `OK -` (substring tests, in
original emission order within each group). -/
def check_exitcodes_lines (result_list : List String) : List String :=
  result_list.filter (fun x => pyContains x "CRITICAL") ++
    result_list.filter (fun x => pyContains x "WARNING") ++
    result_list.filter (fun x => pyContains x "OK -")

/-- Exit-status portion of `check_exitcodes`: 2 if any line matches
`CRITICAL`, else 1 if any matches `WARNING`, else 0. -/
def check_exitcodes_status (result_list : List String) : Nat :=
  if result_list.any (fun x => pyContains x "CRITICAL") then 2
  else if result_list.any (fun x => pyContains x "WARNING") then 1
  else 0

/-- The whole pass on already-fetched text: parse, classify, aggregate. -/
def runCheck (missingOrder : List String) (opts : Options) (raw : String) :
    Except Unit (List String × Nat) :=
  match get_windows_task raw with
  | Except.error e => Except.error e
  | Except.ok dicts =>
    match check_task_details missingOrder opts dicts with
    | Except.error e => Except.error e
    | Except.ok rl => Except.ok (check_exitcodes_lines rl, check_exitcodes_status rl)

/-- Severity taxonomy of the spec's ResultEntry (the classification rules
produce OK and WARNING; CRITICAL is reserved). -/
inductive Severity
  | ok
  | warning
  | critical
deriving DecidableEq, BEq

/-- ResultEntry of the spec: a severity and a message. -/
structure ResultEntry where
  severity : Severity
  message : String
deriving DecidableEq

def sevLabel : Severity → String
  | Severity.ok => "OK"
  | Severity.warning => "WARNING"
  | Severity.critical => "CRITICAL"

/-- Rendering of a ResultEntry as the source renders its result lines. -/
def renderEntry (e : ResultEntry) : String :=
  sevLabel e.severity ++ " - " ++ e.message

/-- Modelled from the spec (Report Aggregator contract, for comparison with
`check_exitcodes_lines`): all CRITICAL entries first, then all WARNING
entries, then all OK entries, each group in original emission order. -/
def specAggregateLines (entries : List ResultEntry) : List String :=
  (entries.filter (fun e => e.severity == Severity.critical)).map renderEntry ++
    (entries.filter (fun e => e.severity == Severity.warning)).map renderEntry ++
    (entries.filter (fun e => e.severity == Severity.ok)).map renderEntry

/-- Modelled from the spec (Report Aggregator contract, for comparison with
`check_exitcodes_status`): the highest severity present, OK when none. -/
def specExitStatus (entries : List ResultEntry) : Nat :=
  if entries.any (fun e => e.severity == Severity.critical) then 2
  else if entries.any (fun e => e.severity == Severity.warning) then 1
  else 0

/-! ### String and list helpers -/

theorem strDataAppend (s t : String) : (s ++ t).data = s.data ++ t.data := rfl

theorem strExt {s t : String} (h : s.data = t.data) : s = t := by
  cases s; cases t; exact congrArg String.mk h

theorem getLastAppendNeNil (l₁ : List Char) {l₂ : List Char} (h : l₂ ≠ []) :
    (l₁ ++ l₂).getLast? = l₂.getLast? :=
  List.getLast?_append_of_ne_nil l₁ h

/-! ### Facts about pyInt -/

theorem pyInt_zero : pyInt "0" = some 0 := rfl

theorem pyInt_ne_zero_str {s : String} {n : Int} (hn : pyInt s = some n) (h : n ≠ 0) :
    s ≠ "0" := by
  intro he
  subst he
  rw [pyInt_zero] at hn
  exact h (Option.some.injEq 0 n ▸ hn).symm

/-! ### Facts about pyHex -/

theorem hexCore_shape : ∀ fuel n ds, 1 ≤ fuel →
    ∃ t, hexCore fuel n ds = t ++ (hexDigitChar (n % 16) :: ds) := by
  intro fuel
  induction fuel with
  | zero => intro n ds h; omega
  | succ f ih =>
    intro n ds _
    by_cases h16 : n / 16 = 0
    · exact ⟨[], by simp [hexCore, h16]⟩
    · cases f with
      | zero => exact ⟨[], by simp [hexCore, h16]⟩
      | succ f' =>
        obtain ⟨t, ht⟩ := ih (n / 16) (hexDigitChar (n % 16) :: ds) (by omega)
        refine ⟨t ++ [hexDigitChar ((n / 16) % 16)], ?_⟩
        rw [show hexCore (f' + 1 + 1) n ds =
          hexCore (f' + 1) (n / 16) (hexDigitChar (n % 16) :: ds) by simp [hexCore, h16]]
        rw [ht, List.append_assoc]
        rfl

theorem natHexStr_shape (n : Nat) :
    ∃ t, (natHexStr n).data = t ++ [hexDigitChar (n % 16)] := by
  obtain ⟨t, ht⟩ := hexCore_shape (n + 1) n [] (by omega)
  exact ⟨t, by rw [show (natHexStr n).data = hexCore (n + 1) n [] from rfl, ht]⟩

theorem hexDigitChar_ne_bang : ∀ m, m < 16 → hexDigitChar m ≠ '!' := by
  intro m h
  interval_cases m <;> decide

theorem pyHex_data_ne_nil (i : Int) : (pyHex i).data ≠ [] := by
  unfold pyHex
  by_cases h : i < 0
  · rw [if_pos h, strDataAppend]
    intro hc
    rw [List.append_eq_nil] at hc
    exact (by decide : "-0x".data ≠ []) hc.1
  · rw [if_neg h, strDataAppend]
    intro hc
    rw [List.append_eq_nil] at hc
    exact (by decide : "0x".data ≠ []) hc.1

theorem pyHex_last (i : Int) :
    ∃ m, m < 16 ∧ (pyHex i).data.getLast? = some (hexDigitChar m) := by
  unfold pyHex
  by_cases h : i < 0
  · obtain ⟨t, ht⟩ := natHexStr_shape i.natAbs
    refine ⟨i.natAbs % 16, Nat.mod_lt _ (by omega), ?_⟩
    rw [if_pos h, strDataAppend, getLastAppendNeNil _ (by rw [ht]; simp)]
    rw [ht]
    exact List.getLast?_concat t
  · obtain ⟨t, ht⟩ := natHexStr_shape i.toNat
    refine ⟨i.toNat % 16, Nat.mod_lt _ (by omega), ?_⟩
    rw [if_neg h, strDataAppend, getLastAppendNeNil _ (by
      rw [ht]; simp)]
    rw [ht]
    exact List.getLast?_concat t

theorem pyHex_getLast_ne_bang (i : Int) : (pyHex i).data.getLast? ≠ some '!' := by
  obtain ⟨m, hm, hlast⟩ := pyHex_last i
  rw [hlast]
  intro hc
  exact hexDigitChar_ne_bang m hm (by injection hc)

/-! ### The lexicon on negative canonical codes -/

theorem neg_ne_key (r key : String) (hk : key.data.head? = some '0') :
    ("-0x" ++ r) ≠ key := by
  intro he
  have hd : ("-0x" ++ r).data = key.data := by rw [he]
  rw [strDataAppend] at hd
  have hd' : ('-' : Char) :: ('0' :: 'x' :: r.data) = key.data := hd
  rw [← hd'] at hk
  exact (by decide : ('-' : Char) ≠ '0') (Option.some.injEq _ _ ▸ hk)

theorem ctrs_neg (r : String) :
    check_task_result_string ("-0x" ++ r) = "UNKNOWN error code!" := by
  unfold check_task_result_string
  rw [if_neg (neg_ne_key r "0x0" rfl), if_neg (neg_ne_key r "0x1" rfl),
    if_neg (neg_ne_key r "0x2" rfl), if_neg (neg_ne_key r "0xa" rfl),
    if_neg (neg_ne_key r "0x103" rfl), if_neg (neg_ne_key r "0x41301" rfl),
    if_neg (neg_ne_key r "0x41302" rfl), if_neg (neg_ne_key r "0x41303" rfl),
    if_neg (neg_ne_key r "0x41305" rfl), if_neg (neg_ne_key r "0x41306" rfl),
    if_neg (neg_ne_key r "0x41307" rfl), if_neg (neg_ne_key r "0x420" rfl),
    if_neg (neg_ne_key r "0x800710e0" rfl), if_neg (neg_ne_key r "0x800700b7" rfl),
    if_neg (neg_ne_key r "0x8007042b" rfl), if_neg (neg_ne_key r "0x40010004" rfl),
    if_neg (neg_ne_key r "0x80004003" rfl), if_neg (neg_ne_key r "0x80004005" rfl),
    if_neg (neg_ne_key r "0x80090030" rfl), if_neg (neg_ne_key r "0x10000000" rfl),
    if_neg (neg_ne_key r "0x8000000a" rfl), if_neg (neg_ne_key r "0x800710e0" rfl)]

/-! ### Computation lemmas for internal_task_check -/

theorem internal_warn (opts : Options) (d : TaskDict) (name : String) (inc : Bool)
    (loc nrt s : String) (n : Int)
    (hl : pyGet d "TaskPath" = some loc) (hnrt : pyGet d "NextRunTime" = some nrt)
    (hs : pyGet d "LastTaskResult" = some s) (hn : pyInt s = some n)
    (hs0 : s ≠ "0") (hig : pyHex n ∉ opts.ignore_resultcode) :
    internal_task_check opts d name inc =
      Except.ok ["WARNING - " ++
        ("'" ++ name ++ "': " ++ check_task_result_string (pyHex n) ++
          " Task location: " ++ loc ++ ". Result code: " ++ pyHex n)] := by
  have hig' : result_code_hex_converter n ∉ opts.ignore_resultcode := hig
  simp only [internal_task_check, hl, hnrt, hs, hn]
  rw [if_pos hig', if_pos hs0]
  rfl

theorem internal_skip (opts : Options) (d : TaskDict) (name : String) (inc : Bool)
    (loc nrt s : String) (n : Int)
    (hl : pyGet d "TaskPath" = some loc) (hnrt : pyGet d "NextRunTime" = some nrt)
    (hs : pyGet d "LastTaskResult" = some s) (hn : pyInt s = some n)
    (hig : pyHex n ∈ opts.ignore_resultcode) :
    internal_task_check opts d name inc = Except.ok [] := by
  have hig' : ¬(result_code_hex_converter n ∉ opts.ignore_resultcode) := not_not_intro hig
  simp only [internal_task_check, hl, hnrt, hs, hn]
  rw [if_neg hig']

/-! ### Claims about per-record classification -/

/-- C4: for every evaluated record whose canonical result code is not in
`ignoredResultCodes`, if the last-run result integer is non-zero then exactly
one WARNING entry carrying the task name, the lexicon description, the task
path and the canonical hex code is emitted for that record — for either value
of the include flag (both modes) — and the schedule/trigger checks are not
applied (the entry does not depend on `NextRunTime` or `Enabled`). -/
theorem c4_nonzero_warning (opts : Options) (d : TaskDict) (name : String) (inc : Bool)
    (loc nrt s : String) (n : Int)
    (hl : pyGet d "TaskPath" = some loc) (hnrt : pyGet d "NextRunTime" = some nrt)
    (hs : pyGet d "LastTaskResult" = some s) (hn : pyInt s = some n)
    (hnz : n ≠ 0) (hig : pyHex n ∉ opts.ignore_resultcode) :
    internal_task_check opts d name inc =
      Except.ok ["WARNING - " ++
        ("'" ++ name ++ "': " ++ check_task_result_string (pyHex n) ++
          " Task location: " ++ loc ++ ". Result code: " ++ pyHex n)] :=
  internal_warn opts d name inc loc nrt s n hl hnrt hs hn (pyInt_ne_zero_str hn hnz) hig

/-- Witness for C4 at a concrete failed record. -/
theorem c4_nonzero_warning_witness :
    pyInt "1" = some 1 ∧
    internal_task_check ⟨[], [], [], false⟩
        [("TaskPath", "\\"), ("NextRunTime", "n"), ("LastTaskResult", "1")] "T" false =
      Except.ok ["WARNING - 'T': The task did not run properly. Task location: \\. Result code: 0x1"] :=
  ⟨rfl, c4_nonzero_warning ⟨[], [], [], false⟩
    [("TaskPath", "\\"), ("NextRunTime", "n"), ("LastTaskResult", "1")] "T" false
    "\\" "n" "1" 1 rfl rfl rfl rfl (by decide) (by decide)⟩

/-- C5: a record whose canonical hex code is in `ignoredResultCodes` emits no
entry of any severity, for either value of the include flag and regardless of
the record's result value, next-run time or trigger state. -/
theorem c5_ignored_skipped (opts : Options) (d : TaskDict) (name : String) (inc : Bool)
    (loc nrt s : String) (n : Int)
    (hl : pyGet d "TaskPath" = some loc) (hnrt : pyGet d "NextRunTime" = some nrt)
    (hs : pyGet d "LastTaskResult" = some s) (hn : pyInt s = some n)
    (hig : pyHex n ∈ opts.ignore_resultcode) :
    internal_task_check opts d name inc = Except.ok [] :=
  internal_skip opts d name inc loc nrt s n hl hnrt hs hn hig

/-- Witness for C5 at a concrete ignored record. -/
theorem c5_ignored_skipped_witness :
    pyHex 267011 ∈ ["0x41303"] ∧
    internal_task_check ⟨[], [], ["0x41303"], false⟩
        [("TaskPath", "\\"), ("NextRunTime", ""), ("LastTaskResult", "267011")] "T" true =
      Except.ok [] :=
  ⟨by decide, c5_ignored_skipped ⟨[], [], ["0x41303"], false⟩
    [("TaskPath", "\\"), ("NextRunTime", ""), ("LastTaskResult", "267011")] "T" true
    "\\" "" "267011" 267011 rfl rfl rfl (by decide) (by decide)⟩

/-- C10: an evaluated, non-ignored record with a negative last-run result is
classified as a single WARNING entry, its canonical code starts with `-0x`,
and the lexicon returns the sentinel description for it. -/
theorem c10_negative_result (opts : Options) (d : TaskDict) (name : String) (inc : Bool)
    (loc nrt s : String) (n : Int)
    (hl : pyGet d "TaskPath" = some loc) (hnrt : pyGet d "NextRunTime" = some nrt)
    (hs : pyGet d "LastTaskResult" = some s) (hn : pyInt s = some n)
    (hneg : n < 0) (hig : pyHex n ∉ opts.ignore_resultcode) :
    internal_task_check opts d name inc =
      Except.ok ["WARNING - " ++
        ("'" ++ name ++ "': " ++ "UNKNOWN error code!" ++
          " Task location: " ++ loc ++ ". Result code: " ++ pyHex n)] ∧
    (∃ rest, pyHex n = "-0x" ++ rest) ∧
    check_task_result_string (pyHex n) = "UNKNOWN error code!" := by
  have hrest : pyHex n = "-0x" ++ natHexStr n.natAbs := by
    unfold pyHex; rw [if_pos hneg]
  have hctrs : check_task_result_string (pyHex n) = "UNKNOWN error code!" := by
    rw [hrest]; exact ctrs_neg _
  refine ⟨?_, ⟨natHexStr n.natAbs, hrest⟩, hctrs⟩
  rw [internal_warn opts d name inc loc nrt s n hl hnrt hs hn
    (pyInt_ne_zero_str hn (by omega)) hig, hctrs]

/-- Witness for C10 at a concrete record with result -1. -/
theorem c10_negative_result_witness :
    pyInt "-1" = some (-1) ∧
    (internal_task_check ⟨[], [], [], false⟩
        [("TaskPath", "\\"), ("NextRunTime", "n"), ("LastTaskResult", "-1")] "T" false =
      Except.ok ["WARNING - 'T': UNKNOWN error code! Task location: \\. Result code: -0x1"] ∧
    (∃ rest, pyHex (-1) = "-0x" ++ rest) ∧
    check_task_result_string (pyHex (-1)) = "UNKNOWN error code!") :=
  ⟨rfl, c10_negative_result ⟨[], [], [], false⟩
    [("TaskPath", "\\"), ("NextRunTime", "n"), ("LastTaskResult", "-1")] "T" false
    "\\" "n" "-1" (-1) rfl rfl rfl rfl (by decide) (by decide)⟩

/-- C6 (amended): the ignore-code membership test is case-sensitive exact
string comparison on the canonical lowercase hex form: for a record whose raw
result string differs from "0", no entry is emitted exactly when its
canonical code is literally a member of `ignoredResultCodes`; a code supplied
in different letter case does not match. -/
theorem c6_case_sensitive_ignore (opts : Options) (d : TaskDict) (name : String) (inc : Bool)
    (loc nrt s : String) (n : Int)
    (hl : pyGet d "TaskPath" = some loc) (hnrt : pyGet d "NextRunTime" = some nrt)
    (hs : pyGet d "LastTaskResult" = some s) (hn : pyInt s = some n)
    (hs0 : s ≠ "0") :
    internal_task_check opts d name inc = Except.ok [] ↔
      pyHex n ∈ opts.ignore_resultcode := by
  constructor
  · intro h
    by_contra hig
    rw [internal_warn opts d name inc loc nrt s n hl hnrt hs hn hs0 hig] at h
    simp at h
  · intro hig
    exact internal_skip opts d name inc loc nrt s n hl hnrt hs hn hig

/-- Witness for C6 (amended): with the lowercase canonical code in the ignore
list the record is skipped. -/
theorem c6_case_sensitive_ignore_witness :
    pyHex 267011 = "0x41303" ∧
    (internal_task_check ⟨[], [], ["0x41303"], false⟩
        [("TaskPath", "\\"), ("NextRunTime", "n"), ("LastTaskResult", "267011")] "T" false =
      Except.ok [] ↔
      pyHex 267011 ∈ ["0x41303"]) :=
  ⟨by decide, c6_case_sensitive_ignore ⟨[], [], ["0x41303"], false⟩
    [("TaskPath", "\\"), ("NextRunTime", "n"), ("LastTaskResult", "267011")] "T" false
    "\\" "n" "267011" 267011 rfl rfl rfl (by decide) (by decide)⟩

/-- Counterexample to C6 as stated: replacing the operator-supplied ignored
code "0x41303" by the same code with an uppercase letter, "0X41303", changes
the emitted entries for the same record — the membership test is not
case-insensitive. -/
theorem c6_counterexample :
    internal_task_check ⟨[], [], ["0x41303"], false⟩
        [("TaskPath", "\\"), ("NextRunTime", "n"), ("LastTaskResult", "267011")] "T" false =
      Except.ok [] ∧
    internal_task_check ⟨[], [], ["0X41303"], false⟩
        [("TaskPath", "\\"), ("NextRunTime", "n"), ("LastTaskResult", "267011")] "T" false =
      Except.ok ["WARNING - 'T': The task has not yet run. Task location: \\. Result code: 0x41303"] ∧
    (Except.ok ([] : List String) : Except Unit (List String)) ≠
      Except.ok ["WARNING - 'T': The task has not yet run. Task location: \\. Result code: 0x41303"] := by
  refine ⟨rfl, rfl, by simp⟩

/-- C7 (amended): for an evaluated, non-ignored record whose raw
`LastTaskResult` field is the string "0" (the source compares the raw string,
not the converted integer): when next-run enforcement is on and the record
has an empty `NextRunTime` or its trigger is reported "False", the
"not scheduled or no trigger" WARNING is emitted; otherwise an OK entry is
emitted exactly when the include flag is set (include mode) and nothing in
exclude mode; a record with no `Enabled` field counts as trigger enabled. -/
theorem c7_success_schedule (opts : Options) (d : TaskDict) (name : String) (inc : Bool)
    (loc nrt : String)
    (hl : pyGet d "TaskPath" = some loc) (hnrt : pyGet d "NextRunTime" = some nrt)
    (hs : pyGet d "LastTaskResult" = some "0")
    (hig : "0x0" ∉ opts.ignore_resultcode) :
    internal_task_check opts d name inc =
      Except.ok
        (if opts.ignore_nextruntime = false ∧
            (nrt = "" ∨ (pyGet d "Enabled").getD "True" = "False") then
          ["WARNING - '" ++ name ++ "' is not scheduled or no trigger. Task location: " ++ loc ++ "."]
        else if inc = true then
          ["OK - " ++
            ("'" ++ name ++ "': " ++ "The task did run properly." ++
              " Task location: " ++ loc ++ ". Result code: " ++ "0x0")]
        else []) := by
  have h0 : pyInt "0" = some 0 := rfl
  have hig' : result_code_hex_converter 0 ∉ opts.ignore_resultcode := hig
  simp only [internal_task_check, hl, hnrt, hs, h0]
  rw [if_pos hig', if_neg (not_not_intro rfl)]
  by_cases h1 : opts.ignore_nextruntime = false
  · by_cases h2 : nrt = "" ∨ (pyGet d "Enabled").getD "True" = "False"
    · have hC : opts.ignore_nextruntime = false ∧
          (nrt = "" ∨ (pyGet d "Enabled").getD "True" = "False") := ⟨h1, h2⟩
      rw [if_pos h1, if_pos h2, if_pos hC]
    · have hC : ¬(opts.ignore_nextruntime = false ∧
          (nrt = "" ∨ (pyGet d "Enabled").getD "True" = "False")) := fun hc => h2 hc.2
      rw [if_pos h1, if_neg h2, if_neg hC]
      by_cases h3 : inc = true
      · rw [if_pos h3, if_pos h3]
        rfl
      · rw [if_neg h3, if_neg h3]
  · have hC : ¬(opts.ignore_nextruntime = false ∧
        (nrt = "" ∨ (pyGet d "Enabled").getD "True" = "False")) := fun hc => h1 hc.1
    rw [if_neg h1, if_neg hC]
    by_cases h3 : inc = true
    · rw [if_pos h3, if_pos h3]
      rfl
    · rw [if_neg h3, if_neg h3]

/-- Witness for C7 (amended) at a concrete unscheduled successful record. -/
theorem c7_success_schedule_witness :
    ("0x0" ∉ (["0x41303"] : List String)) ∧
    internal_task_check ⟨[], ["T"], ["0x41303"], false⟩
        [("TaskPath", "\\"), ("NextRunTime", ""), ("LastTaskResult", "0")] "T" true =
      Except.ok ["WARNING - 'T' is not scheduled or no trigger. Task location: \\."] :=
  ⟨by decide, c7_success_schedule ⟨[], ["T"], ["0x41303"], false⟩
    [("TaskPath", "\\"), ("NextRunTime", ""), ("LastTaskResult", "0")] "T" true
    "\\" "" rfl rfl rfl (by decide)⟩

/-- Counterexample to C7 as stated: the record below has last-run result
integer 0 (raw string "00"), canonical code 0x0 not ignored, enforcement on
and empty NextRunTime, yet the code emits the result-code WARNING — not the
"not scheduled or no trigger" WARNING the claim requires — because the source
compares the raw string with "0". -/
theorem c7_counterexample :
    pyInt "00" = some 0 ∧
    internal_task_check ⟨[], ["T"], [], false⟩
        [("TaskPath", "\\"), ("NextRunTime", ""), ("LastTaskResult", "00")] "T" true =
      Except.ok ["WARNING - 'T': The task did run properly. Task location: \\. Result code: 0x0"] ∧
    (["WARNING - 'T': The task did run properly. Task location: \\. Result code: 0x0"] : List String) ≠
      ["WARNING - 'T' is not scheduled or no trigger. Task location: \\."] := by
  refine ⟨rfl, rfl, by decide⟩

/-! ### Claims about parsing and per-block error handling -/

/-- C3: the parser splits each block line on the first colon and trims label
and value; a line with no colon reaches the broken bare-except handler, which
itself indexes the missing element again, so the whole parse raises — it does
not yield a raw-remainder mapping entry.  This theorem evaluates the parse at
the failing input (a block whose third line, `NextRunTime`, has no colon). -/
theorem c3_no_colon_crash :
    get_windows_task
        "LastRunTime : a\nLastTaskResult : 0\nNextRunTime\nNumberOfMissedRuns : 0\nTaskName : T\nTaskPath : \\" =
      Except.error () := rfl

theorem getTaskNames_error : ∀ (dicts : List TaskDict) (d : TaskDict),
    d ∈ dicts → pyGet d "TaskName" = none → getTaskNames dicts = Except.error () := by
  intro dicts
  induction dicts with
  | nil => intro d hd _; simp at hd
  | cons a rest ih =>
    intro d hd hmiss
    rcases List.mem_cons.mp hd with rfl | hdr
    · unfold getTaskNames pyGetE
      rw [hmiss]
    · unfold getTaskNames
      cases ha : pyGetE a "TaskName" with
      | error e => rfl
      | ok v => rw [ih d hdr hmiss]

/-- C2 (amended): a malformed block is not recovered locally: when any parsed
block lacks the `TaskName` field, the whole evaluation aborts with an
unhandled error (`KeyError` in the source) before classification, so no entry
is produced for any block — well-formed blocks included. -/
theorem c2_malformed_block_aborts (order : List String) (opts : Options)
    (dicts : List TaskDict) (d : TaskDict)
    (hd : d ∈ dicts) (hmiss : pyGet d "TaskName" = none) :
    check_task_details order opts dicts = Except.error () := by
  unfold check_task_details
  rw [getTaskNames_error dicts d hd hmiss]

/-- Witness for C2 (amended) at a one-record list lacking TaskName. -/
theorem c2_malformed_block_aborts_witness :
    ([("LastRunTime", "a")] : TaskDict) ∈ [([("LastRunTime", "a")] : TaskDict)] ∧
    check_task_details [] ⟨[], [], [], false⟩ [[("LastRunTime", "a")]] = Except.error () :=
  ⟨List.mem_singleton.mpr rfl,
    c2_malformed_block_aborts [] ⟨[], [], [], false⟩ [[("LastRunTime", "a")]]
      [("LastRunTime", "a")] (List.mem_singleton.mpr rfl) rfl⟩

/-- Counterexample to C2 as stated: the raw text below holds one complete
well-formed block (task "Good") followed by a truncated two-line block with
no `TaskName`; the claim requires the truncated block to be dropped with the
other block still producing entries, but the whole pass aborts with an error
and emits nothing. -/
theorem c2_counterexample :
    get_windows_task
        "LastRunTime : a\nLastTaskResult : 0\nNextRunTime : b\nNumberOfMissedRuns : 0\nTaskName : Good\nTaskPath : \\\nLastRunTime : c\nLastTaskResult : 5" =
      Except.ok
        [[("LastRunTime", "c"), ("TaskPath", "\\"), ("TaskName", "Good"),
          ("NumberOfMissedRuns", "0"), ("NextRunTime", "b"), ("LastTaskResult", "0"),
          ("LastRunTime", "a")],
         [("LastTaskResult", "5"), ("LastRunTime", "c")]] ∧
    pyGet [("LastTaskResult", "5"), ("LastRunTime", "c")] "TaskName" = none ∧
    runCheck [] ⟨[], [], [], false⟩
        "LastRunTime : a\nLastTaskResult : 0\nNextRunTime : b\nNumberOfMissedRuns : 0\nTaskName : Good\nTaskPath : \\\nLastRunTime : c\nLastTaskResult : 5" =
      Except.error () :=
  ⟨rfl, rfl, rfl⟩

/-! ### Substring behaviour of rendered entries -/

theorem pcCC (m : String) : pyContains (renderEntry ⟨Severity.critical, m⟩) "CRITICAL" = true := rfl

theorem pcCW (m : String) :
    pyContains (renderEntry ⟨Severity.critical, m⟩) "WARNING" = pyContains m "WARNING" := rfl

theorem pcCO (m : String) :
    pyContains (renderEntry ⟨Severity.critical, m⟩) "OK -" = pyContains m "OK -" := rfl

theorem pcWC (m : String) :
    pyContains (renderEntry ⟨Severity.warning, m⟩) "CRITICAL" = pyContains m "CRITICAL" := rfl

theorem pcWW (m : String) : pyContains (renderEntry ⟨Severity.warning, m⟩) "WARNING" = true := rfl

theorem pcWO (m : String) :
    pyContains (renderEntry ⟨Severity.warning, m⟩) "OK -" = pyContains m "OK -" := rfl

theorem pcOC (m : String) :
    pyContains (renderEntry ⟨Severity.ok, m⟩) "CRITICAL" = pyContains m "CRITICAL" := rfl

theorem pcOW (m : String) :
    pyContains (renderEntry ⟨Severity.ok, m⟩) "WARNING" = pyContains m "WARNING" := rfl

theorem pcOO (m : String) : pyContains (renderEntry ⟨Severity.ok, m⟩) "OK -" = true := rfl

theorem pc_render_crit (e : ResultEntry) (h : pyContains e.message "CRITICAL" = false) :
    pyContains (renderEntry e) "CRITICAL" = (e.severity == Severity.critical) := by
  obtain ⟨s, m⟩ := e
  cases s with
  | ok => rw [pcOC, h]; rfl
  | warning => rw [pcWC, h]; rfl
  | critical => rw [pcCC]; rfl

theorem pc_render_warn (e : ResultEntry) (h : pyContains e.message "WARNING" = false) :
    pyContains (renderEntry e) "WARNING" = (e.severity == Severity.warning) := by
  obtain ⟨s, m⟩ := e
  cases s with
  | ok => rw [pcOW, h]; rfl
  | warning => rw [pcWW]; rfl
  | critical => rw [pcCW, h]; rfl

theorem pc_render_ok (e : ResultEntry) (h : pyContains e.message "OK -" = false) :
    pyContains (renderEntry e) "OK -" = (e.severity == Severity.ok) := by
  obtain ⟨s, m⟩ := e
  cases s with
  | ok => rw [pcOO]; rfl
  | warning => rw [pcWO, h]; rfl
  | critical => rw [pcCO, h]; rfl

theorem filter_map_render (p : String → Bool) (q : ResultEntry → Bool) :
    ∀ l : List ResultEntry, (∀ e ∈ l, p (renderEntry e) = q e) →
      (l.map renderEntry).filter p = (l.filter q).map renderEntry := by
  intro l
  induction l with
  | nil => intro _; rfl
  | cons e t ih =>
    intro h
    have he := h e (List.mem_cons_self e t)
    rw [List.map_cons, List.filter_cons, List.filter_cons, he]
    by_cases hq : q e = true
    · rw [if_pos hq, if_pos hq, List.map_cons, ih (fun x hx => h x (List.mem_cons_of_mem e hx))]
    · rw [if_neg hq, if_neg hq, ih (fun x hx => h x (List.mem_cons_of_mem e hx))]

theorem any_map_render (p : String → Bool) (q : ResultEntry → Bool) :
    ∀ l : List ResultEntry, (∀ e ∈ l, p (renderEntry e) = q e) →
      (l.map renderEntry).any p = l.any q := by
  intro l
  induction l with
  | nil => intro _; rfl
  | cons e t ih =>
    intro h
    have he := h e (List.mem_cons_self e t)
    rw [List.map_cons, List.any_cons, List.any_cons, he,
      ih (fun x hx => h x (List.mem_cons_of_mem e hx))]

/-! ### Claims about the report aggregator -/

/-- C1 (amended): provided no entry message contains "CRITICAL", "WARNING"
or "OK -" as a substring, the aggregated output prints all CRITICAL lines,
then all WARNING lines, then all OK lines, each group in original emission
order, and the exit status equals the highest severity present — OK (0) for
the empty list.  (The source groups and escalates by substring matching on
the rendered lines, so without that proviso a message containing another
severity's token is printed in several groups and escalates the status.) -/
theorem c1_severity_ordering (entries : List ResultEntry)
    (h : ∀ e ∈ entries, pyContains e.message "CRITICAL" = false ∧
      pyContains e.message "WARNING" = false ∧ pyContains e.message "OK -" = false) :
    check_exitcodes_lines (entries.map renderEntry) = specAggregateLines entries ∧
    check_exitcodes_status (entries.map renderEntry) = specExitStatus entries := by
  have hc : ∀ e ∈ entries,
      (fun x => pyContains x "CRITICAL") (renderEntry e) =
        (fun e => e.severity == Severity.critical) e :=
    fun e he => pc_render_crit e (h e he).1
  have hw : ∀ e ∈ entries,
      (fun x => pyContains x "WARNING") (renderEntry e) =
        (fun e => e.severity == Severity.warning) e :=
    fun e he => pc_render_warn e (h e he).2.1
  have ho : ∀ e ∈ entries,
      (fun x => pyContains x "OK -") (renderEntry e) =
        (fun e => e.severity == Severity.ok) e :=
    fun e he => pc_render_ok e (h e he).2.2
  constructor
  · unfold check_exitcodes_lines specAggregateLines
    rw [filter_map_render _ _ entries hc, filter_map_render _ _ entries hw,
      filter_map_render _ _ entries ho]
  · unfold check_exitcodes_status specExitStatus
    rw [any_map_render _ _ entries hc, any_map_render _ _ entries hw]

/-- Witness for C1 (amended) on a concrete mixed-severity entry list. -/
theorem c1_severity_ordering_witness :
    (∀ e ∈ [(⟨Severity.ok, "fine"⟩ : ResultEntry), ⟨Severity.critical, "boom"⟩,
        ⟨Severity.warning, "hmm"⟩],
      pyContains e.message "CRITICAL" = false ∧
        pyContains e.message "WARNING" = false ∧ pyContains e.message "OK -" = false) ∧
    (check_exitcodes_lines
        ([(⟨Severity.ok, "fine"⟩ : ResultEntry), ⟨Severity.critical, "boom"⟩,
          ⟨Severity.warning, "hmm"⟩].map renderEntry) =
      specAggregateLines [⟨Severity.ok, "fine"⟩, ⟨Severity.critical, "boom"⟩,
        ⟨Severity.warning, "hmm"⟩] ∧
    check_exitcodes_status
        ([(⟨Severity.ok, "fine"⟩ : ResultEntry), ⟨Severity.critical, "boom"⟩,
          ⟨Severity.warning, "hmm"⟩].map renderEntry) =
      specExitStatus [⟨Severity.ok, "fine"⟩, ⟨Severity.critical, "boom"⟩,
        ⟨Severity.warning, "hmm"⟩]) :=
  ⟨by decide, c1_severity_ordering
    [⟨Severity.ok, "fine"⟩, ⟨Severity.critical, "boom"⟩, ⟨Severity.warning, "hmm"⟩]
    (by decide)⟩

/-- Counterexample to C1 as stated: one OK-severity entry whose message
mentions "WARNING" (a task name can contain it) makes the exit status 1
although the highest severity present is OK, and the rendered line is
printed in two groups. -/
theorem c1_counterexample :
    check_exitcodes_status
        ([(⟨Severity.ok, "'WARNING Backup': The task did run properly."⟩ : ResultEntry)].map
          renderEntry) = 1 ∧
    specExitStatus [(⟨Severity.ok, "'WARNING Backup': The task did run properly."⟩ : ResultEntry)] = 0 ∧
    check_exitcodes_lines
        ([(⟨Severity.ok, "'WARNING Backup': The task did run properly."⟩ : ResultEntry)].map
          renderEntry) ≠
      specAggregateLines [(⟨Severity.ok, "'WARNING Backup': The task did run properly."⟩ : ResultEntry)] := by
  refine ⟨rfl, rfl, by decide⟩

/-! ### The missing-name message -/

theorem missingMsg_inj {a b : String} (h : missingMsg a = missingMsg b) : a = b := by
  unfold missingMsg at h
  have hd := congrArg String.data h
  rw [strDataAppend, strDataAppend, strDataAppend, strDataAppend] at hd
  exact strExt (List.append_cancel_left (List.append_cancel_right hd))

theorem missingMsg_last (n : String) : (missingMsg n).data.getLast? = some '!' := by
  unfold missingMsg
  rw [strDataAppend, getLastAppendNeNil _ (by decide)]
  rfl

theorem count_map_missing (name : String) : ∀ o : List String, o.Nodup → name ∈ o →
    List.count (missingMsg name) (o.map missingMsg) = 1 := by
  intro o
  induction o with
  | nil => intro _ h; simp at h
  | cons a t ih =>
    intro hnd hmem
    rw [List.map_cons, List.count_cons]
    rcases List.mem_cons.mp hmem with rfl | hmt
    · have hnin : name ∉ t := (List.nodup_cons.mp hnd).1
      have h0 : List.count (missingMsg name) (t.map missingMsg) = 0 := by
        rw [List.count_eq_zero]
        intro hc
        obtain ⟨x, hx, hex⟩ := List.mem_map.mp hc
        exact hnin (missingMsg_inj hex ▸ hx)
      rw [h0, if_pos (beq_self_eq_true _)]
    · have hne : a ≠ name := by
        rintro rfl
        exact (List.nodup_cons.mp hnd).1 hmt
      have hbe : (missingMsg a == missingMsg name) = false := by
        rw [beq_eq_false_iff_ne]
        intro hx
        exact hne (missingMsg_inj hx)
      rw [hbe, if_neg (by simp), ih (List.nodup_cons.mp hnd).2 hmt]

/-! ### Entries produced by record classification never end in '!' -/

theorem internal_last (opts : Options) (d : TaskDict) (name : String) (inc : Bool)
    (l : List String) (h : internal_task_check opts d name inc = Except.ok l) :
    ∀ x ∈ l, x.data.getLast? ≠ some '!' := by
  unfold internal_task_check at h
  cases h1 : pyGet d "TaskPath" with
  | none => simp only [h1] at h; exact absurd h (by simp)
  | some loc =>
  simp only [h1] at h
  cases h2 : pyGet d "NextRunTime" with
  | none => simp only [h2] at h; exact absurd h (by simp)
  | some nrt =>
  simp only [h2] at h
  cases h3 : pyGet d "LastTaskResult" with
  | none => simp only [h3] at h; exact absurd h (by simp)
  | some s =>
  simp only [h3] at h
  cases h4 : pyInt s with
  | none => simp only [h4] at h; exact absurd h (by simp)
  | some n =>
  simp only [h4] at h
  have hexne : (result_code_hex_converter n).data ≠ [] := pyHex_data_ne_nil n
  have hexlast : (result_code_hex_converter n).data.getLast? ≠ some '!' :=
    pyHex_getLast_ne_bang n
  split at h
  · split at h
    · -- non-zero raw string: the single result-code WARNING entry
      injection h with h
      subst h
      intro x hx
      rcases List.mem_singleton.mp hx with rfl
      rw [strDataAppend, getLastAppendNeNil _ (by
        rw [strDataAppend]
        intro hc
        rw [List.append_eq_nil] at hc
        exact hexne hc.2)]
      rw [strDataAppend, getLastAppendNeNil _ hexne]
      exact hexlast
    · split at h
      · split at h
        · -- "not scheduled or no trigger" entry, ending with "."
          injection h with h
          subst h
          intro x hx
          rcases List.mem_singleton.mp hx with rfl
          rw [strDataAppend, getLastAppendNeNil _ (by decide)]
          decide
        · split at h
          · -- OK entry in include mode
            injection h with h
            subst h
            intro x hx
            rcases List.mem_singleton.mp hx with rfl
            rw [strDataAppend, getLastAppendNeNil _ (by
              rw [strDataAppend]
              intro hc
              rw [List.append_eq_nil] at hc
              exact hexne hc.2)]
            rw [strDataAppend, getLastAppendNeNil _ hexne]
            exact hexlast
          · injection h with h
            subst h
            intro x hx
            simp at hx
      · split at h
        · injection h with h
          subst h
          intro x hx
          rcases List.mem_singleton.mp hx with rfl
          rw [strDataAppend, getLastAppendNeNil _ (by
            rw [strDataAppend]
            intro hc
            rw [List.append_eq_nil] at hc
            exact hexne hc.2)]
          rw [strDataAppend, getLastAppendNeNil _ hexne]
          exact hexlast
        · injection h with h
          subst h
          intro x hx
          simp at hx
  · injection h with h
    subst h
    intro x hx
    simp at hx

theorem records_last (opts : Options) : ∀ (dicts : List TaskDict) (recs : List String),
    checkTaskRecords opts dicts = Except.ok recs →
    ∀ x ∈ recs, x.data.getLast? ≠ some '!' := by
  intro dicts
  induction dicts with
  | nil =>
    intro recs h
    unfold checkTaskRecords at h
    injection h with h
    subst h
    intro x hx
    simp at hx
  | cons d rest ih =>
    intro recs h
    unfold checkTaskRecords at h
    cases hn : pyGet d "TaskName" with
    | none => simp only [hn] at h; exact absurd h (by simp)
    | some nm =>
      simp only [hn] at h
      split at h
      · exact absurd h (by simp)
      · rename_i entries hstep
        split at h
        · exact absurd h (by simp)
        · rename_i more hmore
          injection h with h
          subst h
          intro x hx
          rcases List.mem_append.mp hx with hxe | hxm
          · -- entry from this record's classification
            split at hstep
            · split at hstep
              · exact internal_last opts d nm true entries hstep x hxe
              · injection hstep with hstep
                subst hstep
                simp at hxe
            · split at hstep
              · exact internal_last opts d nm false entries hstep x hxe
              · injection hstep with hstep
                subst hstep
                simp at hxe
          · exact ih more hmore x hxm

/-! ### Claims about include-mode missing names and determinism -/

/-- C8: in include mode, the missing-name pass runs once, before per-record
classification: the output is the missing-name WARNING block followed by the
normal record evaluation, and for every include-name without a matching
record exactly one WARNING entry naming it ("task can not be found. Please
check task name!") occurs in the whole output, while the records are still
evaluated by the usual per-record rule. -/
theorem c8_missing_include_names (opts : Options) (dicts : List TaskDict)
    (tns order recs : List String) (name : String)
    (ht : getTaskNames dicts = Except.ok tns)
    (hrec : checkTaskRecords opts dicts = Except.ok recs)
    (hv : validMissingOrder opts.include_taskname_list tns order)
    (hn : name ∈ opts.include_taskname_list) (hm : name ∉ tns) :
    check_task_details order opts dicts = Except.ok (order.map missingMsg ++ recs) ∧
    List.count (missingMsg name) (order.map missingMsg ++ recs) = 1 := by
  constructor
  · unfold check_task_details
    rw [ht, hrec]
  · rw [List.count_append]
    have h0 : List.count (missingMsg name) recs = 0 := by
      rw [List.count_eq_zero]
      intro hmem
      exact records_last opts dicts recs hrec _ hmem (missingMsg_last name)
    rw [h0, Nat.add_zero]
    exact count_map_missing name order hv.1 (hv.2.1 name hn hm)

/-- Witness for C8: include-names A and B, one parsed record A. -/
theorem c8_missing_include_names_witness :
    validMissingOrder ["A", "B"] ["A"] ["B"] ∧
    (check_task_details ["B"] ⟨[], ["A", "B"], [], false⟩
        [[("TaskPath", "\\"), ("NextRunTime", "x"), ("LastTaskResult", "0"), ("TaskName", "A")]] =
      Except.ok
        ((["B"].map missingMsg) ++
          ["OK - 'A': The task did run properly. Task location: \\. Result code: 0x0"]) ∧
    List.count (missingMsg "B")
        ((["B"].map missingMsg) ++
          ["OK - 'A': The task did run properly. Task location: \\. Result code: 0x0"]) = 1) :=
  ⟨by decide, c8_missing_include_names ⟨[], ["A", "B"], [], false⟩
    [[("TaskPath", "\\"), ("NextRunTime", "x"), ("LastTaskResult", "0"), ("TaskName", "A")]]
    ["A"] ["B"]
    ["OK - 'A': The task did run properly. Task location: \\. Result code: 0x0"]
    "B" rfl rfl (by decide) (by decide) (by decide)⟩

theorem perm_any {α : Type} (p : α → Bool) {l₁ l₂ : List α} (h : l₁.Perm l₂) :
    l₁.any p = l₂.any p := by
  induction h with
  | nil => rfl
  | cons x _ ih => rw [List.any_cons, List.any_cons, ih]
  | swap x y l => rw [List.any_cons, List.any_cons, List.any_cons, List.any_cons,
      ← Bool.or_assoc, Bool.or_comm (p y) (p x), Bool.or_assoc]
  | trans _ _ ih1 ih2 => rw [ih1, ih2]

/-- C9 (amended): the whole pass is a pure function of the raw text, the
policy and the enumeration order Python happens to choose for the missing
include-name set difference — an order the language does not fix across
processes.  Two runs on identical text and policy with (possibly different)
valid enumerations produce permuted output lines — only the missing-name
WARNING block can be reordered — and identical exit status; byte-identical
output is guaranteed only for equal enumeration orders. -/
theorem c9_determinism (opts : Options) (raw : String) (dicts : List TaskDict)
    (tns o1 o2 l1 l2 : List String) (n1 n2 : Nat)
    (hp : get_windows_task raw = Except.ok dicts)
    (ht : getTaskNames dicts = Except.ok tns)
    (h1 : validMissingOrder opts.include_taskname_list tns o1)
    (h2 : validMissingOrder opts.include_taskname_list tns o2)
    (r1 : runCheck o1 opts raw = Except.ok (l1, n1))
    (r2 : runCheck o2 opts raw = Except.ok (l2, n2)) :
    l1.Perm l2 ∧ n1 = n2 := by
  simp only [runCheck, hp, check_task_details, ht] at r1 r2
  cases hrec : checkTaskRecords opts dicts with
  | error e =>
    simp only [hrec] at r1
    exact absurd r1 (by simp)
  | ok recs =>
    simp only [hrec] at r1 r2
    have ho : o1.Perm o2 := by
      rw [List.perm_ext_iff_of_nodup h1.1 h2.1]
      intro a
      constructor
      · intro ha
        obtain ⟨hin, hnin⟩ := h1.2.2 a ha
        exact h2.2.1 a hin hnin
      · intro ha
        obtain ⟨hin, hnin⟩ := h2.2.2 a ha
        exact h1.2.1 a hin hnin
    have hperm : (o1.map missingMsg ++ recs).Perm (o2.map missingMsg ++ recs) :=
      List.Perm.append_right recs (ho.map missingMsg)
    have e1 := r1
    have e2 := r2
    simp only [Except.ok.injEq, Prod.mk.injEq] at e1 e2
    obtain ⟨hl1, hn1⟩ := e1
    obtain ⟨hl2, hn2⟩ := e2
    subst hl1; subst hn1; subst hl2; subst hn2
    constructor
    · unfold check_exitcodes_lines
      exact List.Perm.append (List.Perm.append (hperm.filter _) (hperm.filter _)) (hperm.filter _)
    · unfold check_exitcodes_status
      rw [perm_any _ hperm, perm_any _ hperm]

/-- Witness for C9 (amended): empty input, one missing include-name. -/
theorem c9_determinism_witness :
    validMissingOrder ["A"] [] ["A"] ∧
    (List.Perm
        ["WARNING - 'A' task can not be found. Please check task name!"]
        ["WARNING - 'A' task can not be found. Please check task name!"] ∧
      (1 : Nat) = 1) :=
  ⟨by decide, c9_determinism ⟨[], ["A"], [], false⟩ "" [] [] ["A"] ["A"]
    ["WARNING - 'A' task can not be found. Please check task name!"]
    ["WARNING - 'A' task can not be found. Please check task name!"] 1 1
    rfl rfl (by decide) (by decide) rfl rfl⟩

/-- Counterexample to C9 as stated: with include-names A and B and empty
input, both enumerations ["A","B"] and ["B","A"] are valid orders of the
missing-name set difference, yet the two runs produce different ordered
output lines — the output is not a function of text and policy alone. -/
theorem c9_counterexample :
    validMissingOrder ["A", "B"] [] ["A", "B"] ∧
    validMissingOrder ["A", "B"] [] ["B", "A"] ∧
    runCheck ["A", "B"] ⟨[], ["A", "B"], [], false⟩ "" =
      Except.ok (["WARNING - 'A' task can not be found. Please check task name!",
        "WARNING - 'B' task can not be found. Please check task name!"], 1) ∧
    runCheck ["B", "A"] ⟨[], ["A", "B"], [], false⟩ "" =
      Except.ok (["WARNING - 'B' task can not be found. Please check task name!",
        "WARNING - 'A' task can not be found. Please check task name!"], 1) ∧
    (["WARNING - 'A' task can not be found. Please check task name!",
      "WARNING - 'B' task can not be found. Please check task name!"] : List String) ≠
      ["WARNING - 'B' task can not be found. Please check task name!",
       "WARNING - 'A' task can not be found. Please check task name!"] := by
  refine ⟨by decide, by decide, rfl, rfl, by decide⟩
